import Mathlib

/-!
# Recipe app: workflow controller and provider gateway

A shallow embedding of `src/App.jsx`.

* React state cells (`useState`) are fields of one record, `World`; every setter is a
  record update.  An `async` handler is split at its `await`: the part that runs
  synchronously (`generatePlanStart`, `handleImageUpload`) and the continuation that runs
  when the awaited promise settles (`generatePlanResume`, `recognizeSettled`).
* Everything the JavaScript engine or the network decides is an explicit input: the
  outcome of `fetch`, the outcome of `response.json()`, `JSON.parse`, the string
  conversion of objects, and the wording of engine `TypeError`s (`Engine`).
* Effects are logged: `fetch` calls, `alert` calls, `console.error` calls and calls of
  `Tesseract.recognize`.
* Persisting the settings to `localStorage` is not modelled; the values loaded from it at
  start-up are parameters of `initialWorld`.
-/

namespace RecipeApp

/-! ## JavaScript values -/

/-- A JavaScript value of the kind `JSON.parse` produces or `JSON.stringify` consumes.
A number is identified with its canonical `Number::toString` rendering (so `0` and `-0`
are both `num "0"`); strings are sequences of Unicode scalar values. -/
inductive JsVal where
  | undefined
  | null
  | bool (b : Bool)
  | num (canon : String)
  | str (s : String)
  | arr (items : List JsVal)
  | obj (fields : List (String × JsVal))

/-- A thrown or rejected error object: its `name` and its `message`. -/
structure JsError where
  name : String
  message : String

/-- The parts of the JavaScript engine the handlers rely on. -/
structure Engine where
  /-- Function `JSON.parse` on a string: the parsed value, or the `SyntaxError` thrown. -/
  jsonParse : String → Except JsError JsVal
  /-- String conversion of an array or object: the string, or the `TypeError` thrown. -/
  objectToString : JsVal → Except JsError String
  /-- The `TypeError` thrown when property `k` is read from `undefined` or `null`. -/
  nullishRead : JsVal → String → JsError

/-- Truthiness of a value, as tested by `!x` and `x || y`. -/
def JsVal.truthy : JsVal → Bool
  | .undefined => false
  | .null => false
  | .bool b => b
  | .num canon => !(canon == "0" || canon == "NaN")
  | .str s => !(s == "")
  | .arr _ => true
  | .obj _ => true

/-- Whether a value is `undefined` or `null`. -/
def JsVal.isNullish : JsVal → Bool
  | .undefined => true
  | .null => true
  | _ => false

/-- Property read `v.k` (and `v[0]` for `k = "0"`), for the property names the source
reads: `candidates`, `content`, `parts`, `text`, `choices`, `message`, `error` and `0`,
none of which is defined on a built-in prototype.  Reading from `undefined` or `null`
throws; a missing property is `undefined`; index `0` of a non-empty string is its first
character. -/
def getField (E : Engine) (v : JsVal) (k : String) : Except JsError JsVal :=
  match v with
  | .undefined => .error (E.nullishRead .undefined k)
  | .null => .error (E.nullishRead .null k)
  | .obj fields => .ok ((fields.lookup k).getD .undefined)
  | .arr items => .ok (if k = "0" then items.head?.getD .undefined else .undefined)
  | .str s =>
      .ok (if k = "0" then
        (match s.data with
         | [] => .undefined
         | c :: _ => .str (String.singleton c))
      else .undefined)
  | _ => .ok .undefined

/-- Optional read `v?.k`: `undefined` when `v` is `undefined` or `null`. -/
def optField (E : Engine) (v : JsVal) (k : String) : Except JsError JsVal :=
  if v.isNullish then .ok .undefined else getField E v k

/-- String conversion, as applied by `JSON.parse(x)` and `new Error(x)` to their argument. -/
def toJsString (E : Engine) : JsVal → Except JsError String
  | .undefined => .ok "undefined"
  | .null => .ok "null"
  | .bool b => .ok (if b then "true" else "false")
  | .num canon => .ok canon
  | .str s => .ok s
  | .arr items => E.objectToString (.arr items)
  | .obj fields => E.objectToString (.obj fields)

/-! ## Network -/

/-- A call of `fetch`.  The `body` is the object handed to `JSON.stringify`. -/
structure Request where
  url : String
  method : String
  headers : List (String × String)
  body : JsVal

/-- A response: status line and the outcome of `response.json()`. -/
structure Response where
  status : Nat
  statusText : String
  json : Except JsError JsVal

/-- Property `response.ok`: the status is in the range 200 to 299. -/
def Response.ok (r : Response) : Bool :=
  decide (200 ≤ r.status) && decide (r.status ≤ 299)

/-- How the promise returned by `fetch` settles. -/
inductive FetchOutcome where
  | rejected (e : JsError)
  | resolved (r : Response)

/-- How the promise returned by `Tesseract.recognize` settles: with `data.text`, or rejected. -/
inductive OcrOutcome where
  | text (t : String)
  | failed (e : JsError)

/-! ## State -/

/-- State of one mounted `OcrSection` (lines 89-93). -/
structure OcrSection where
  /-- Identity of the mounted instance; setters captured by an older instance do not
  reach a newer one. -/
  inst : Nat
  isProcessing : Bool
  progress : Int
  preview : Option String
  /-- Value of `useTesseract()`, read as `tesseractLoaded`. -/
  isLoaded : Bool

/-- The state cells of `App`, the mounted `OcrSection` if any, the pending promises and
the effect logs. -/
structure World where
  apiKey : String
  modelProvider : String
  showSettings : Bool
  step : Nat
  extractedText : String
  mealPlan : JsVal
  loadingPlan : Bool
  /-- The `OcrSection` rendered by `renderStep1`, present while `step === 1`. -/
  ocr : Option OcrSection
  /-- Number of `OcrSection` instances mounted so far. -/
  mounts : Nat
  /-- Whether `window.Tesseract` is defined. -/
  windowTesseract : Bool
  /-- Script elements appended and not yet loaded, by the instance that appended them. -/
  pendingScripts : List Nat
  /-- Calls of `Tesseract.recognize` not yet settled, by the instance that made them. -/
  pendingOcr : List Nat
  /-- Calls of `generatePlan` suspended at `await fetch`, by the `modelProvider` they closed over. -/
  pendingPlans : List String
  fetchLog : List Request
  recognizeLog : List String
  alerts : List String
  console : List String

/-! ## The generation request (lines 194-267) -/

/-- The template literal `systemPrompt` (lines 194-218). -/
def systemPrompt : String :=
  "\n" ++
  "            You are an expert meal planner focused on Zero Food Waste. \n" ++
  "            Analyze the provided grocery receipt text. \n" ++
  "            1. Identify the edible ingredients. \n" ++
  "            2. Create a 3-day meal plan (Breakfast, Lunch, Dinner) that uses these ingredients efficiently.\n" ++
  "            3. Prioritize using highly perishable items (meat, berries, greens) on Day 1.\n" ++
  "            4. Suggest \"Leftover Logic\" (e.g., use roast chicken from Day 1 dinner in Day 2 lunch).\n" ++
  "            \n" ++
  "            Return ONLY valid JSON with this structure:\n" ++
  "            \x7b\n" ++
  "                \"pantry_summary\": [\"item1\", \"item2\"],\n" ++
  "                \"days\": [\n" ++
  "                    \x7b\n" ++
  "                        \"day\": \"Day 1\",\n" ++
  "                        \"focus\": \"Eat the Fresh Stuff\",\n" ++
  "                        \"meals\": \x7b\n" ++
  "                            \"breakfast\": \x7b \"name\": \"...\", \"ingredients_used\": [\"...\"] \x7d,\n" ++
  "                            \"lunch\": \x7b \"name\": \"...\", \"ingredients_used\": [\"...\"] \x7d,\n" ++
  "                            \"dinner\": \x7b \"name\": \"...\", \"ingredients_used\": [\"...\"] \x7d\n" ++
  "                        \x7d\n" ++
  "                    \x7d,\n" ++
  "                    ... (Day 2, Day 3)\n" ++
  "                ]\n" ++
  "            \x7d\n" ++
  "        "

/-- The template literal with the receipt text (lines 232 and 263). -/
def receiptContent (extractedText : String) : String :=
  "Here is the receipt text: \n\n" ++ extractedText

/-- The request of the Gemini branch (lines 225-235). -/
def geminiRequest (apiKey extractedText : String) : Request :=
  let geminiKey := if apiKey ≠ "" then apiKey else ""
  { url := "https://generativelanguage.googleapis.com/v1beta/models/" ++
      "gemini-2.5-flash-preview-09-2025:generateContent?key=" ++ geminiKey
    method := "POST"
    headers := [("Content-Type", "application/json")]
    body := .obj [
      ("contents", .arr [.obj [("parts", .arr [.obj [
        ("text", .str (systemPrompt ++ "\n\n" ++ receiptContent extractedText))]])]]),
      ("generationConfig", .obj [("responseMimeType", .str "application/json")])] }

/-- The request of the DeepSeek / OpenAI branch (lines 249-267). -/
def chatRequest (modelProvider apiKey extractedText : String) : Request :=
  { url := if modelProvider = "deepseek" then "https://api.deepseek.com/chat/completions"
      else "https://api.openai.com/v1/chat/completions"
    method := "POST"
    headers := [("Content-Type", "application/json"), ("Authorization", "Bearer " ++ apiKey)]
    body := .obj [
      ("model", .str (if modelProvider = "deepseek" then "deepseek-chat" else "gpt-4o-mini")),
      ("messages", .arr [
        .obj [("role", .str "system"), ("content", .str systemPrompt)],
        .obj [("role", .str "user"), ("content", .str (receiptContent extractedText))]]),
      ("response_format", .obj [("type", .str "json_object")])] }

/-- The request `generatePlan` issues for a provider. -/
def planRequest (modelProvider apiKey extractedText : String) : Request :=
  if modelProvider = "gemini" then geminiRequest apiKey extractedText
  else chatRequest modelProvider apiKey extractedText

/-! ## Reading the response (lines 237-245 and 269-276) -/

/-- The error a non-ok response is turned into (lines 238-239 and 270-271):
`new Error(err.error?.message || fallback)` with `err` the parsed body, or the empty
object when `response.json()` rejects.  Evaluating the argument can itself throw. -/
def responseError (E : Engine) (r : Response) (fallback : String) : Except JsError JsError := do
  let err := match r.json with
    | .ok v => v
    | .error _ => JsVal.obj []
  let e ← getField E err "error"
  let m ← optField E e "message"
  let chosen := if m.truthy then m else JsVal.str fallback
  let message ← toJsString E chosen
  pure { name := "Error", message := message }

/-- The chain `result.candidates?.[0]?.content?.parts?.[0]?.text` (line 243). -/
def geminiText (E : Engine) (result : JsVal) : Except JsError JsVal := do
  let candidates ← getField E result "candidates"
  let first ← optField E candidates "0"
  let content ← optField E first "content"
  let parts ← optField E content "parts"
  let part ← optField E parts "0"
  optField E part "text"

/-- The chain `resData.choices[0].message.content` (line 275). -/
def chatContent (E : Engine) (resData : JsVal) : Except JsError JsVal := do
  let choices ← getField E resData "choices"
  let first ← getField E choices "0"
  let message ← getField E first "message"
  getField E message "content"

/-- The Gemini branch after `await fetch` (lines 237-245): the value handed to
`setMealPlan`, or the error thrown. -/
def geminiPlan (E : Engine) (r : Response) : Except JsError JsVal := do
  if !r.ok then
    let e ← responseError E r ("Gemini API Error: " ++ r.statusText)
    throw e
  let result ← r.json
  let text ← geminiText E result
  if !text.truthy then
    throw { name := "Error", message := "Empty response from Gemini" }
  let source ← toJsString E text
  E.jsonParse source

/-- The DeepSeek / OpenAI branch after `await fetch` (lines 269-276): the value handed to
`setMealPlan`, or the error thrown. -/
def chatPlan (E : Engine) (r : Response) : Except JsError JsVal := do
  if !r.ok then
    let e ← responseError E r ("API Error " ++ toString r.status ++ ": " ++ r.statusText)
    throw e
  let resData ← r.json
  let content ← chatContent E resData
  let source ← toJsString E content
  E.jsonParse source

/-- The body of the `try` block from `await fetch` up to the argument of `setMealPlan`,
for the provider the call closed over. -/
def planAttempt (E : Engine) (modelProvider : String) (o : FetchOutcome) : Except JsError JsVal :=
  match o with
  | .rejected e => .error e
  | .resolved r => if modelProvider = "gemini" then geminiPlan E r else chatPlan E r

/-! ## Mounting and the state setters -/

/-- A freshly mounted `OcrSection` after its mount effect (lines 8-24, 90-93): loaded at
once when `window.Tesseract` exists, otherwise a script element is appended. -/
def mountOcr (w : World) : World :=
  { w with
    ocr := some { inst := w.mounts, isProcessing := false, progress := 0, preview := none,
                  isLoaded := w.windowTesseract }
    mounts := w.mounts + 1
    pendingScripts := if w.windowTesseract then w.pendingScripts
                      else w.pendingScripts ++ [w.mounts] }

/-- Setter `setStep(n)` followed by the re-render (lines 425-427): `OcrSection` is
rendered exactly while `step === 1`, so it is unmounted on leaving step 1 and mounted
afresh on returning to it. -/
def setStep (n : Nat) (w : World) : World :=
  if n = 1 then
    (if w.step = 1 then w else mountOcr { w with step := 1 })
  else { w with step := n, ocr := none }

/-- Apply a state update to the `OcrSection` instance `inst`, if it is still mounted. -/
def updateOcr (inst : Nat) (f : OcrSection → OcrSection) (w : World) : World :=
  match w.ocr with
  | some sec => if sec.inst = inst then { w with ocr := some (f sec) } else w
  | none => w

/-- The state before the first event: `App` at step 1 with `OcrSection` mounted, after
the effect that loads the settings (lines 164-176). -/
def initialWorld (storedKey storedProvider : String) : World :=
  mountOcr
    { apiKey := storedKey
      modelProvider := if storedProvider ≠ "" then storedProvider else "gemini"
      showSettings := false
      step := 1
      extractedText := ""
      mealPlan := .null
      loadingPlan := false
      ocr := none
      mounts := 0
      windowTesseract := false
      pendingScripts := []
      pendingOcr := []
      pendingPlans := []
      fetchLog := []
      recognizeLog := []
      alerts := []
      console := [] }

/-! ## Handlers -/

/-- Function `generatePlan` up to its first `await` (lines 185-235 and 249-267). -/
def generatePlanStart (w : World) : World :=
  if w.modelProvider ≠ "gemini" ∧ w.apiKey = "" then
    { w with showSettings := true }
  else
    { w with
      loadingPlan := true
      fetchLog := w.fetchLog ++ [planRequest w.modelProvider w.apiKey w.extractedText]
      pendingPlans := w.pendingPlans ++ [w.modelProvider] }

/-- Function `generatePlan` from the settling of `fetch` to its end (lines 237-286), for
a call that closed over `modelProvider`. -/
def generatePlanResume (E : Engine) (modelProvider : String) (o : FetchOutcome)
    (w : World) : World :=
  let w1 := match planAttempt E modelProvider o with
    | .ok plan => setStep 3 { w with mealPlan := plan }
    | .error e =>
        { w with
          console := w.console ++ [e.message]
          alerts := w.alerts ++ ["Generation Failed: " ++ e.message] }
  { w1 with loadingPlan := false, pendingPlans := w1.pendingPlans.erase modelProvider }

/-- One whole call of `generatePlan` with nothing happening while it is suspended. -/
def generatePlan (E : Engine) (o : FetchOutcome) (w : World) : World :=
  if w.modelProvider ≠ "gemini" ∧ w.apiKey = "" then generatePlanStart w
  else generatePlanResume E w.modelProvider o (generatePlanStart w)

/-- Prop `onTextExtracted` passed by `renderStep1` (line 297). -/
def onTextExtracted (text : String) (w : World) : World :=
  setStep 2 { w with extractedText := text }

/-- Function `handleImageUpload` up to the call of `Tesseract.recognize` (lines 95-117),
with `file` the value of `e.target.files[0]`; the preview URL is identified with the file. -/
def handleImageUpload (file : Option String) (w : World) : World :=
  match w.ocr with
  | none => w
  | some sec =>
    match file with
    | none => w
    | some f =>
      if !sec.isLoaded then
        { w with alerts := w.alerts ++ ["OCR Engine is still loading. Please wait a moment."] }
      else
        { w with
          ocr := some { sec with preview := some f, isProcessing := true, progress := 0 }
          recognizeLog := w.recognizeLog ++ [f]
          pendingOcr := w.pendingOcr ++ [sec.inst] }

/-- The `logger` callback (lines 112-116); `percent` is `Math.floor(m.progress * 100)`. -/
def recognizeLogger (inst : Nat) (status : String) (percent : Int) (w : World) : World :=
  if status = "recognizing text" then
    updateOcr inst (fun sec => { sec with progress := percent }) w
  else w

/-- The `then` and `catch` callbacks of `Tesseract.recognize` (lines 118-125). -/
def recognizeSettled (inst : Nat) (o : OcrOutcome) (w : World) : World :=
  let w1 := { updateOcr inst (fun sec => { sec with isProcessing := false }) w with
              pendingOcr := w.pendingOcr.erase inst }
  match o with
  | .text t => onTextExtracted t w1
  | .failed e =>
      { w1 with
        console := w1.console ++ [e.message]
        alerts := w1.alerts ++ ["Failed to read receipt. Please try a clearer image."] }

/-- The `onload` callback of the script element appended by instance `inst` (line 17);
loading the script defines `window.Tesseract`. -/
def scriptLoaded (inst : Nat) (w : World) : World :=
  updateOcr inst (fun sec => { sec with isLoaded := true })
    { w with windowTesseract := true, pendingScripts := w.pendingScripts.erase inst }

/-- The `onerror` callback of the script element appended by instance `inst` (line 18). -/
def scriptFailed (inst : Nat) (w : World) : World :=
  { w with
    pendingScripts := w.pendingScripts.erase inst
    console := w.console ++ ["Failed to load Tesseract"] }

/-! ## Events -/

/-- What can happen to the page: a user action on a rendered control, or the settling of
a pending promise or script load. -/
inductive Event where
  | scriptLoaded (inst : Nat)
  | scriptFailed (inst : Nat)
  | selectImage (file : Option String)
  | recognizeProgress (inst : Nat) (status : String) (percent : Int)
  | recognizeSettled (inst : Nat) (o : OcrOutcome)
  | editText (value : String)
  | clickGenerate
  | fetchSettled (modelProvider : String) (o : FetchOutcome)
  | backToScan
  | newScan
  | openSettings
  | closeSettings
  | changeApiKey (value : String)
  | changeProvider (value : String)

/-- The effect of an event.  A user action takes effect only when its control is
rendered and enabled (lines 149-152, 316-343, 351, 418, 425-438); the settling of a
promise or script only when it is pending.  Otherwise the state is unchanged.
A render that throws is not modelled: at step 3 `renderStep3` reads `pantry_summary`,
`days` and the fields of each day (lines 360-400), and when the stored value lacks them
the page shows no control at all, while here the controls of step 3 stay available.
So the events allowed here include every event the page allows. -/
def dispatch (E : Engine) (w : World) : Event → World
  | .scriptLoaded inst => if inst ∈ w.pendingScripts then scriptLoaded inst w else w
  | .scriptFailed inst => if inst ∈ w.pendingScripts then scriptFailed inst w else w
  | .selectImage file =>
      match w.ocr with
      | some sec => if !sec.isProcessing && sec.isLoaded then handleImageUpload file w else w
      | none => w
  | .recognizeProgress inst status percent =>
      if inst ∈ w.pendingOcr then recognizeLogger inst status percent w else w
  | .recognizeSettled inst o => if inst ∈ w.pendingOcr then recognizeSettled inst o w else w
  | .editText value => if w.step = 2 then { w with extractedText := value } else w
  | .clickGenerate => if w.step = 2 ∧ w.loadingPlan = false then generatePlanStart w else w
  | .fetchSettled modelProvider o =>
      if modelProvider ∈ w.pendingPlans then generatePlanResume E modelProvider o w else w
  | .backToScan => if w.step = 2 then setStep 1 w else w
  | .newScan => if w.step = 3 then setStep 1 w else w
  | .openSettings => { w with showSettings := true }
  | .closeSettings => if w.showSettings then { w with showSettings := false } else w
  | .changeApiKey value =>
      if w.showSettings ∧ w.modelProvider ≠ "gemini" then { w with apiKey := value } else w
  | .changeProvider value =>
      if w.showSettings ∧ (value = "gemini" ∨ value = "deepseek" ∨ value = "openai") then
        { w with modelProvider := value }
      else w

/-- The state after a sequence of events. -/
def run (E : Engine) (w : World) (events : List Event) : World :=
  events.foldl (dispatch E) w

/-- A state the page can be in: the result of some events from some initial state. -/
def Reachable (E : Engine) (w : World) : Prop :=
  ∃ storedKey storedProvider events, w = run E (initialWorld storedKey storedProvider) events

/-! ## The canonical meal plan of the specification -/

/-- Whether a value is an array of strings. -/
def isStringList : JsVal → Bool
  | .arr items => items.all (fun v => match v with
      | .str _ => true
      | _ => false)
  | _ => false

/-- Whether a value is a string. -/
def isString : JsVal → Bool
  | .str _ => true
  | _ => false

/-- Specification, MealEntry: an object with a string `name` and a string list
`ingredients_used`. -/
def isMealEntry : JsVal → Bool
  | .obj fields =>
      isString ((fields.lookup "name").getD .undefined) &&
      isStringList ((fields.lookup "ingredients_used").getD .undefined)
  | _ => false

/-- Specification, DayPlan: an object with strings `day` and `focus` and a `meals` object
with exactly the keys `breakfast`, `lunch` and `dinner`, each a MealEntry. -/
def isDayPlan : JsVal → Bool
  | .obj fields =>
      isString ((fields.lookup "day").getD .undefined) &&
      isString ((fields.lookup "focus").getD .undefined) &&
      (match (fields.lookup "meals").getD .undefined with
       | .obj meals =>
           meals.all (fun kv => kv.1 == "breakfast" || kv.1 == "lunch" || kv.1 == "dinner") &&
           isMealEntry ((meals.lookup "breakfast").getD .undefined) &&
           isMealEntry ((meals.lookup "lunch").getD .undefined) &&
           isMealEntry ((meals.lookup "dinner").getD .undefined)
       | _ => false)
  | _ => false

/-- The value of `mealPlan.days` as a list (line 370); empty when it is not an array. -/
def planDays : JsVal → List JsVal
  | .obj fields =>
      (match (fields.lookup "days").getD .undefined with
       | .arr items => items
       | _ => [])
  | _ => []

/-- The value of `mealPlan.pantry_summary` (line 360). -/
def planPantry : JsVal → JsVal
  | .obj fields => (fields.lookup "pantry_summary").getD .undefined
  | _ => .undefined

/-- Specification, MealPlan (section 3 and rules 2-4 of section 4.3): `pantry_summary` is
a list of strings and `days` is a list of exactly 3 DayPlan entries. -/
def isCanonicalMealPlan (v : JsVal) : Bool :=
  isStringList (planPantry v) &&
  (match v with
   | .obj fields =>
       (match (fields.lookup "days").getD .undefined with
        | .arr items => items.length == 3 && items.all isDayPlan
        | _ => false)
   | _ => false)

/-! ## Sample data

A three-day plan, its JSON text, and an engine that agrees with a browser on the texts
used in the examples. -/

/-- A meal entry `{"name": name, "ingredients_used": [item]}`. -/
def sampleMeal (name item : String) : JsVal :=
  .obj [("name", .str name), ("ingredients_used", .arr [.str item])]

/-- A day entry with three meals. -/
def sampleDay (label : String) : JsVal :=
  .obj [("day", .str label), ("focus", .str "Fresh"),
    ("meals", .obj [("breakfast", sampleMeal "Porridge" "Milk"),
      ("lunch", sampleMeal "Omelette" "Eggs"),
      ("dinner", sampleMeal "Toast" "Bread")])]

/-- A canonical plan with three days. -/
def samplePlan : JsVal :=
  .obj [("pantry_summary", .arr [.str "Milk", .str "Eggs", .str "Bread"]),
    ("days", .arr [sampleDay "Day 1", sampleDay "Day 2", sampleDay "Day 3"])]

/-- The same plan with only two days. -/
def twoDayPlan : JsVal :=
  .obj [("pantry_summary", .arr [.str "Milk", .str "Eggs", .str "Bread"]),
    ("days", .arr [sampleDay "Day 1", sampleDay "Day 2"])]

/-- JSON text of one day of the sample plans. -/
def sampleDayText (label : String) : String :=
  "\x7b\"day\":\"" ++ label ++ "\",\"focus\":\"Fresh\",\"meals\":\x7b" ++
  "\"breakfast\":\x7b\"name\":\"Porridge\",\"ingredients_used\":[\"Milk\"]\x7d," ++
  "\"lunch\":\x7b\"name\":\"Omelette\",\"ingredients_used\":[\"Eggs\"]\x7d," ++
  "\"dinner\":\x7b\"name\":\"Toast\",\"ingredients_used\":[\"Bread\"]\x7d\x7d\x7d"

/-- JSON text of `samplePlan`. -/
def samplePlanText : String :=
  "\x7b\"pantry_summary\":[\"Milk\",\"Eggs\",\"Bread\"],\"days\":[" ++
  sampleDayText "Day 1" ++ "," ++ sampleDayText "Day 2" ++ "," ++ sampleDayText "Day 3" ++
  "]\x7d"

/-- JSON text of `twoDayPlan`. -/
def twoDayPlanText : String :=
  "\x7b\"pantry_summary\":[\"Milk\",\"Eggs\",\"Bread\"],\"days\":[" ++
  sampleDayText "Day 1" ++ "," ++ sampleDayText "Day 2" ++ "]\x7d"

/-- An engine that parses the texts used below as a browser does (`samplePlanText`,
`twoDayPlanText`, the empty object and `null`), rejects the other texts used below
(`undefined`, the empty string, `not json`), and words its errors as V8 does. -/
def sampleEngine : Engine :=
  { jsonParse := fun source =>
      if source = samplePlanText then .ok samplePlan
      else if source = twoDayPlanText then .ok twoDayPlan
      else if source = "\x7b\x7d" then .ok (.obj [])
      else if source = "null" then .ok .null
      else .error { name := "SyntaxError", message := "Unexpected token in JSON" }
    objectToString := fun v =>
      match v with
      | .obj _ => .ok "[object Object]"
      | _ => .ok ""
    nullishRead := fun v k =>
      { name := "TypeError"
        message := "Cannot read properties of " ++
          (match v with
           | .null => "null"
           | _ => "undefined") ++ " (reading \'" ++ k ++ "\')" } }

/-- An ok Gemini response whose first candidate carries `text`. -/
def geminiResponse (text : JsVal) : Response :=
  { status := 200
    statusText := "OK"
    json := .ok (.obj [("candidates", .arr [.obj [("content",
      .obj [("parts", .arr [.obj [("text", text)]])])]])]) }

/-- An ok chat-completions response whose first choice carries `content`. -/
def chatResponse (content : JsVal) : Response :=
  { status := 200
    statusText := "OK"
    json := .ok (.obj [("choices", .arr [.obj [("message", .obj [("content", content)])]])]) }

/-- A state in Review holding a receipt text, for a provider and key. -/
def reviewWorld (modelProvider apiKey : String) : World :=
  { apiKey := apiKey
    modelProvider := modelProvider
    showSettings := false
    step := 2
    extractedText := "Milk\nEggs\nBread"
    mealPlan := .null
    loadingPlan := false
    ocr := none
    mounts := 1
    windowTesseract := true
    pendingScripts := []
    pendingOcr := []
    pendingPlans := []
    fetchLog := []
    recognizeLog := ["receipt.jpg"]
    alerts := []
    console := [] }

/-! ## Notions used in the statements -/

/-- The payload a provider's response body carries: the Gemini chain for `gemini`, the
chat chain for every other provider. -/
def payloadValue (E : Engine) (modelProvider : String) (body : JsVal) : Except JsError JsVal :=
  if modelProvider = "gemini" then geminiText E body else chatContent E body

/-- The fallback message of a non-ok response (lines 239 and 271). -/
def fallbackMessage (modelProvider : String) (r : Response) : String :=
  if modelProvider = "gemini" then "Gemini API Error: " ++ r.statusText
  else "API Error " ++ toString r.status ++ ": " ++ r.statusText

/-- The ways the attempt can fail that the specification lists. -/
inductive FailureCause (E : Engine) (modelProvider : String) : FetchOutcome → Prop where
  | fetchRejects (e : JsError) : FailureCause E modelProvider (.rejected e)
  | notOk (r : Response) (hok : r.ok = false) : FailureCause E modelProvider (.resolved r)
  | geminiTextAbsent (r : Response) (body text : JsVal) (hp : modelProvider = "gemini")
      (hok : r.ok = true) (hbody : r.json = .ok body) (htext : geminiText E body = .ok text)
      (hfalsy : text.truthy = false) : FailureCause E modelProvider (.resolved r)
  | chatContentAbsent (r : Response) (body : JsVal) (hp : modelProvider ≠ "gemini")
      (hok : r.ok = true) (hbody : r.json = .ok body)
      (habsent : chatContent E body = .ok .undefined ∨ ∃ e, chatContent E body = .error e)
      (hundef : ∃ e, E.jsonParse "undefined" = .error e) :
      FailureCause E modelProvider (.resolved r)
  | notJson (r : Response) (body : JsVal) (text : String) (e : JsError)
      (hok : r.ok = true) (hbody : r.json = .ok body)
      (htext : payloadValue E modelProvider body = .ok (.str text))
      (hparse : E.jsonParse text = .error e) : FailureCause E modelProvider (.resolved r)

/-- The plan value an event hands to `setMealPlan`, if it does: the settling of a pending
`fetch` whose attempt succeeds. -/
def storedBy (E : Engine) (w : World) : Event → List JsVal
  | .fetchSettled modelProvider o =>
      if modelProvider ∈ w.pendingPlans then
        (match planAttempt E modelProvider o with
         | .ok plan => [plan]
         | .error _ => [])
      else []
  | _ => []

/-- The plan values handed to `setMealPlan` along a sequence of events, oldest first. -/
def plansStored (E : Engine) (w : World) : List Event → List JsVal
  | [] => []
  | ev :: rest => storedBy E w ev ++ plansStored E (dispatch E w ev) rest

/-- The events of a first scan and a generation with Gemini that answers `text`. -/
def scanAndGenerate (receipt : String) (text : JsVal) : List Event :=
  [.scriptLoaded 0, .selectImage (some "receipt.jpg"), .recognizeSettled 0 (.text receipt),
   .clickGenerate, .fetchSettled "gemini" (.resolved (geminiResponse text))]

/-- The field `k` of the object a request carries as its body. -/
def requestField (r : Request) (k : String) : JsVal :=
  match r.body with
  | .obj fields => (fields.lookup k).getD .undefined
  | _ => .undefined

/-- The `messages` array of the chat providers for a receipt text. -/
def chatMessages (extractedText : String) : JsVal :=
  .arr [
    .obj [("role", .str "system"), ("content", .str systemPrompt)],
    .obj [("role", .str "user"),
          ("content", .str ("Here is the receipt text: \n\n" ++ extractedText))]]

/-- The value bound to `err` for a response that is not ok (lines 238 and 270): the
parsed body, or the empty object when `response.json()` rejects. -/
def errorBody (r : Response) : JsVal :=
  match r.json with
  | .ok v => v
  | .error _ => .obj []

/-! ## Facts about reading the response -/

theorem geminiPlan_notOk (E : Engine) (r : Response) (h : r.ok = false) :
    ∃ e, geminiPlan E r = .error e := by
  unfold geminiPlan
  simp only [h]
  cases hr : responseError E r ("Gemini API Error: " ++ r.statusText) with
  | error e => exact ⟨e, by simp [bind, Except.bind]⟩
  | ok e => exact ⟨e, by simp [bind, Except.bind, throw, throwThe, MonadExceptOf.throw]⟩

theorem chatPlan_notOk (E : Engine) (r : Response) (h : r.ok = false) :
    ∃ e, chatPlan E r = .error e := by
  unfold chatPlan
  simp only [h]
  cases hr : responseError E r ("API Error " ++ toString r.status ++ ": " ++ r.statusText) with
  | error e => exact ⟨e, by simp [bind, Except.bind]⟩
  | ok e => exact ⟨e, by simp [bind, Except.bind, throw, throwThe, MonadExceptOf.throw]⟩

theorem geminiPlan_ok (E : Engine) (r : Response) (body : JsVal) (h : r.ok = true)
    (hbody : r.json = .ok body) :
    geminiPlan E r = (do
      let text ← geminiText E body
      if !text.truthy then
        throw { name := "Error", message := "Empty response from Gemini" }
      let source ← toJsString E text
      E.jsonParse source) := by
  unfold geminiPlan
  simp [h, hbody, bind, Except.bind, pure, Except.pure]

theorem chatPlan_ok (E : Engine) (r : Response) (body : JsVal) (h : r.ok = true)
    (hbody : r.json = .ok body) :
    chatPlan E r = (do
      let content ← chatContent E body
      let source ← toJsString E content
      E.jsonParse source) := by
  unfold chatPlan
  simp [h, hbody, bind, Except.bind, pure, Except.pure]

/-- An ok response whose payload is a non-empty string is parsed by `JSON.parse`, and the
attempt has the outcome of that parse. -/
theorem planAttempt_payload (E : Engine) (p : String) (r : Response) (body : JsVal)
    (text : String) (hok : r.ok = true) (hbody : r.json = .ok body)
    (htext : payloadValue E p body = .ok (.str text)) (hne : text ≠ "") :
    planAttempt E p (.resolved r) = E.jsonParse text := by
  unfold planAttempt
  by_cases hp : p = "gemini"
  · simp only [hp, if_true]
    rw [geminiPlan_ok E r body hok hbody]
    simp only [payloadValue, hp, if_true] at htext
    simp [htext, bind, Except.bind, JsVal.truthy, hne, toJsString, pure, Except.pure]
  · simp only [hp, if_false]
    rw [chatPlan_ok E r body hok hbody]
    simp only [payloadValue, hp, if_false] at htext
    simp [htext, bind, Except.bind, toJsString]

/-- Each listed cause makes the attempt throw. -/
theorem planAttempt_of_cause (E : Engine) (p : String) (o : FetchOutcome)
    (h : FailureCause E p o) : ∃ e, planAttempt E p o = .error e := by
  cases h with
  | fetchRejects e => exact ⟨e, rfl⟩
  | notOk r hok =>
      unfold planAttempt
      by_cases hp : p = "gemini"
      · simpa [hp] using geminiPlan_notOk E r hok
      · simpa [hp] using chatPlan_notOk E r hok
  | geminiTextAbsent r body text hp hok hbody htext hfalsy =>
      refine ⟨{ name := "Error", message := "Empty response from Gemini" }, ?_⟩
      unfold planAttempt
      simp only [hp, if_true]
      rw [geminiPlan_ok E r body hok hbody]
      simp [htext, hfalsy, bind, Except.bind, throw, throwThe, MonadExceptOf.throw]
  | chatContentAbsent r body hp hok hbody habsent hundef =>
      unfold planAttempt
      simp only [hp, if_false]
      rw [chatPlan_ok E r body hok hbody]
      rcases habsent with h | ⟨e, h⟩
      · obtain ⟨e, he⟩ := hundef
        exact ⟨e, by simp [h, bind, Except.bind, toJsString, he]⟩
      · exact ⟨e, by simp [h, bind, Except.bind]⟩
  | notJson r body text e hok hbody htext hparse =>
      by_cases hne : text = ""
      · subst hne
        unfold planAttempt
        by_cases hp : p = "gemini"
        · refine ⟨{ name := "Error", message := "Empty response from Gemini" }, ?_⟩
          simp only [hp, if_true]
          rw [geminiPlan_ok E r body hok hbody]
          simp only [payloadValue, hp, if_true] at htext
          simp [htext, bind, Except.bind, JsVal.truthy, throw, throwThe, MonadExceptOf.throw]
        · refine ⟨e, ?_⟩
          simp only [hp, if_false]
          rw [chatPlan_ok E r body hok hbody]
          simp only [payloadValue, hp, if_false] at htext
          simp [htext, bind, Except.bind, toJsString, hparse]
      · exact ⟨e, by rw [planAttempt_payload E p r body text hok hbody htext hne, hparse]⟩

/-! ## The effect of one call of `generatePlan` -/

/-- The state after a call whose attempt throws: the error is logged and alerted, the
busy flag is cleared, and nothing else visible changes. -/
theorem generatePlan_thrown (E : Engine) (w : World) (o : FetchOutcome) (e : JsError)
    (hcred : ¬ (w.modelProvider ≠ "gemini" ∧ w.apiKey = ""))
    (h : planAttempt E w.modelProvider o = .error e) :
    generatePlan E o w =
      { w with
        loadingPlan := false
        fetchLog := w.fetchLog ++ [planRequest w.modelProvider w.apiKey w.extractedText]
        pendingPlans := (w.pendingPlans ++ [w.modelProvider]).erase w.modelProvider
        console := w.console ++ [e.message]
        alerts := w.alerts ++ ["Generation Failed: " ++ e.message] } := by
  simp only [generatePlan, if_neg hcred, generatePlanStart, generatePlanResume, h]

/-- The state after a call whose attempt yields `plan`: the plan is stored whole, the
step is 3 and the busy flag is cleared. -/
theorem generatePlan_stored (E : Engine) (w : World) (o : FetchOutcome) (plan : JsVal)
    (hcred : ¬ (w.modelProvider ≠ "gemini" ∧ w.apiKey = ""))
    (h : planAttempt E w.modelProvider o = .ok plan) :
    generatePlan E o w =
      { w with
        mealPlan := plan
        step := 3
        ocr := none
        loadingPlan := false
        fetchLog := w.fetchLog ++ [planRequest w.modelProvider w.apiKey w.extractedText]
        pendingPlans := (w.pendingPlans ++ [w.modelProvider]).erase w.modelProvider } := by
  simp [generatePlan, if_neg hcred, generatePlanStart, generatePlanResume, h, setStep]

/-! ## C1: failure atomicity -/

/-- Claim C1. For every state in Review whose credential check passes: each failure
the specification lists (fetch rejects, the response is not ok, the Gemini text is
absent or empty, the chat content is absent, the payload is not JSON) makes the attempt
throw; and whenever the attempt throws, the call of `generatePlan` still returns a
state, with the same step (Review), the same `extractedText` and `mealPlan`,
`loadingPlan` false, and one alert carrying the error message.  The same holds for the
continuation alone, in whatever state the page is when `fetch` settles. -/
theorem generatePlan_failure_atomic (E : Engine) (w : World) (o : FetchOutcome)
    (hstep : w.step = 2) (hcred : ¬ (w.modelProvider ≠ "gemini" ∧ w.apiKey = "")) :
    (FailureCause E w.modelProvider o → ∃ e, planAttempt E w.modelProvider o = .error e) ∧
    (∀ e, planAttempt E w.modelProvider o = .error e →
      (generatePlan E o w).step = 2 ∧
      (generatePlan E o w).extractedText = w.extractedText ∧
      (generatePlan E o w).mealPlan = w.mealPlan ∧
      (generatePlan E o w).loadingPlan = false ∧
      (generatePlan E o w).alerts = w.alerts ++ ["Generation Failed: " ++ e.message]) ∧
    (∀ e (later : World), planAttempt E w.modelProvider o = .error e →
      (generatePlanResume E w.modelProvider o later).step = later.step ∧
      (generatePlanResume E w.modelProvider o later).extractedText = later.extractedText ∧
      (generatePlanResume E w.modelProvider o later).mealPlan = later.mealPlan ∧
      (generatePlanResume E w.modelProvider o later).loadingPlan = false ∧
      (generatePlanResume E w.modelProvider o later).alerts
        = later.alerts ++ ["Generation Failed: " ++ e.message]) := by
  refine ⟨planAttempt_of_cause E w.modelProvider o, ?_, ?_⟩
  · intro e he
    rw [generatePlan_thrown E w o e hcred he]
    exact ⟨hstep, rfl, rfl, rfl, rfl⟩
  · intro e later he
    simp [generatePlanResume, he]

/-- Witness for C1: OpenAI answers with content that is not JSON. -/
theorem generatePlan_failure_atomic_witness :
    (∃ e, planAttempt sampleEngine "openai" (.resolved (chatResponse (.str "not json")))
      = .error e) ∧
    (generatePlan sampleEngine (.resolved (chatResponse (.str "not json")))
      (reviewWorld "openai" "sk-test")).step = 2 ∧
    (generatePlan sampleEngine (.resolved (chatResponse (.str "not json")))
      (reviewWorld "openai" "sk-test")).mealPlan = .null ∧
    (generatePlan sampleEngine (.resolved (chatResponse (.str "not json")))
      (reviewWorld "openai" "sk-test")).loadingPlan = false ∧
    (generatePlan sampleEngine (.resolved (chatResponse (.str "not json")))
      (reviewWorld "openai" "sk-test")).alerts
      = ["Generation Failed: Unexpected token in JSON"] :=
  have h := generatePlan_failure_atomic sampleEngine (reviewWorld "openai" "sk-test")
    (.resolved (chatResponse (.str "not json"))) rfl (by decide)
  have hcause : FailureCause sampleEngine "openai"
      (.resolved (chatResponse (.str "not json"))) :=
    FailureCause.notJson (chatResponse (.str "not json")) _ "not json"
      { name := "SyntaxError", message := "Unexpected token in JSON" } rfl rfl rfl rfl
  have hpost := h.2.1 { name := "SyntaxError", message := "Unexpected token in JSON" } rfl
  ⟨h.1 hcause, hpost.1, hpost.2.2.1, hpost.2.2.2.1, hpost.2.2.2.2⟩

/-! ## C2: the credential check -/

/-- Claim C2. Function `generatePlan` stops before `fetch` exactly when the provider is
not `gemini` and `apiKey` is empty.  Then no request is issued, `showSettings` becomes
true, and `step`, `extractedText`, `mealPlan` and `loadingPlan` are unchanged, whatever
the network would have answered.  In every other case, Gemini with an empty key
included, `loadingPlan` is set and exactly one request is issued. -/
theorem generatePlanStart_credential (E : Engine) (w : World) :
    ((generatePlanStart w).fetchLog = w.fetchLog ↔
      (w.modelProvider ≠ "gemini" ∧ w.apiKey = "")) ∧
    ((w.modelProvider ≠ "gemini" ∧ w.apiKey = "") →
      (generatePlanStart w).showSettings = true ∧
      (generatePlanStart w).step = w.step ∧
      (generatePlanStart w).extractedText = w.extractedText ∧
      (generatePlanStart w).mealPlan = w.mealPlan ∧
      (generatePlanStart w).loadingPlan = w.loadingPlan ∧
      (generatePlanStart w).pendingPlans = w.pendingPlans ∧
      ∀ o, generatePlan E o w = generatePlanStart w) ∧
    (¬ (w.modelProvider ≠ "gemini" ∧ w.apiKey = "") →
      (generatePlanStart w).loadingPlan = true ∧
      (generatePlanStart w).showSettings = w.showSettings ∧
      (generatePlanStart w).fetchLog
        = w.fetchLog ++ [planRequest w.modelProvider w.apiKey w.extractedText]) ∧
    (w.modelProvider = "gemini" →
      (generatePlanStart w).loadingPlan = true ∧
      (generatePlanStart w).fetchLog
        = w.fetchLog ++ [geminiRequest w.apiKey w.extractedText]) := by
  refine ⟨?_, ?_, ?_, ?_⟩
  · by_cases h : w.modelProvider ≠ "gemini" ∧ w.apiKey = ""
    · simp [generatePlanStart, h]
    · simp only [generatePlanStart, if_neg h]
      refine ⟨fun hlog => ?_, fun hc => absurd hc h⟩
      have hlen := congrArg List.length hlog
      simp at hlen
  · intro h
    simp [generatePlanStart, generatePlan, h]
  · intro h
    simp [generatePlanStart, if_neg h]
  · intro h
    simp [generatePlanStart, h, planRequest]

/-- Witness for C2: DeepSeek with an empty key issues no request and opens the settings;
Gemini with an empty key issues one. -/
theorem generatePlanStart_credential_witness :
    ((generatePlanStart (reviewWorld "deepseek" "")).fetchLog = [] ∧
      (generatePlanStart (reviewWorld "deepseek" "")).showSettings = true ∧
      (generatePlanStart (reviewWorld "deepseek" "")).loadingPlan = false) ∧
    ((generatePlanStart (reviewWorld "gemini" "")).loadingPlan = true ∧
      (generatePlanStart (reviewWorld "gemini" "")).fetchLog
        = [geminiRequest "" "Milk\nEggs\nBread"]) :=
  have hd := (generatePlanStart_credential sampleEngine (reviewWorld "deepseek" "")).2.1
    (by decide)
  have hg := (generatePlanStart_credential sampleEngine (reviewWorld "gemini" "")).2.2.2 rfl
  ⟨⟨((generatePlanStart_credential sampleEngine (reviewWorld "deepseek" "")).1.mpr
      (by decide)), hd.1, hd.2.2.2.2.1⟩, hg⟩

/-! ## C3: the success path -/

/-- Claim C3. For every provider whose credential check passes and every ok response
whose payload (Gemini: first candidate's first part's text; otherwise: first choice's
message content) is a non-empty string that `JSON.parse` turns into a canonical meal
plan, `generatePlan` raises no alert and ends with `step` 3, `loadingPlan` false and
`mealPlan` equal to the parsed payload; so `mealPlan.days` has length 3 and
`mealPlan.pantry_summary` is the payload's list. -/
theorem generatePlan_success (E : Engine) (w : World) (r : Response) (body plan : JsVal)
    (text : String) (hcred : ¬ (w.modelProvider ≠ "gemini" ∧ w.apiKey = ""))
    (hok : r.ok = true) (hbody : r.json = .ok body)
    (htext : payloadValue E w.modelProvider body = .ok (.str text)) (hne : text ≠ "")
    (hparse : E.jsonParse text = .ok plan) (hcanon : isCanonicalMealPlan plan = true) :
    (generatePlan E (.resolved r) w).step = 3 ∧
    (generatePlan E (.resolved r) w).loadingPlan = false ∧
    (generatePlan E (.resolved r) w).mealPlan = plan ∧
    (generatePlan E (.resolved r) w).alerts = w.alerts ∧
    (planDays (generatePlan E (.resolved r) w).mealPlan).length = 3 ∧
    planPantry (generatePlan E (.resolved r) w).mealPlan = planPantry plan := by
  have hattempt : planAttempt E w.modelProvider (.resolved r) = .ok plan := by
    rw [planAttempt_payload E w.modelProvider r body text hok hbody htext hne, hparse]
  rw [generatePlan_stored E w (.resolved r) plan hcred hattempt]
  refine ⟨rfl, rfl, rfl, rfl, ?_, rfl⟩
  show (planDays plan).length = 3
  unfold isCanonicalMealPlan at hcanon
  cases plan with
  | obj fields =>
      simp only [planDays]
      cases hdays : (fields.lookup "days").getD .undefined with
      | arr items =>
          simp only [hdays, Bool.and_eq_true, beq_iff_eq] at hcanon
          exact hcanon.2.1
      | _ => simp [hdays] at hcanon
  | _ => simp at hcanon

set_option maxRecDepth 20000 in
/-- Witness for C3: Gemini answers with the text of the three-day sample plan. -/
theorem generatePlan_success_witness :
    (generatePlan sampleEngine (.resolved (geminiResponse (.str samplePlanText)))
      (reviewWorld "gemini" "")).step = 3 ∧
    (generatePlan sampleEngine (.resolved (geminiResponse (.str samplePlanText)))
      (reviewWorld "gemini" "")).loadingPlan = false ∧
    (generatePlan sampleEngine (.resolved (geminiResponse (.str samplePlanText)))
      (reviewWorld "gemini" "")).mealPlan = samplePlan ∧
    (planDays (generatePlan sampleEngine (.resolved (geminiResponse (.str samplePlanText)))
      (reviewWorld "gemini" "")).mealPlan).length = 3 :=
  have h := generatePlan_success sampleEngine (reviewWorld "gemini" "")
    (geminiResponse (.str samplePlanText)) _ samplePlan samplePlanText (by decide) rfl rfl
    rfl (by decide) (by simp [sampleEngine]) (by decide)
  ⟨h.1, h.2.1, h.2.2.1, h.2.2.2.2.1⟩

/-! ## C4: payloads that are not canonical plans -/

/-- Counterexample to C4: Gemini answers with a plan of only two days.  The payload is
not canonical, yet the call ends in step 3 with the two-day plan stored and no alert. -/
theorem generatePlan_stores_two_days :
    isCanonicalMealPlan twoDayPlan = false ∧
    (planDays twoDayPlan).length = 2 ∧
    (generatePlan sampleEngine (.resolved (geminiResponse (.str twoDayPlanText)))
      (reviewWorld "gemini" "")).step = 3 ∧
    (generatePlan sampleEngine (.resolved (geminiResponse (.str twoDayPlanText)))
      (reviewWorld "gemini" "")).mealPlan = twoDayPlan ∧
    (generatePlan sampleEngine (.resolved (geminiResponse (.str twoDayPlanText)))
      (reviewWorld "gemini" "")).alerts = [] := by
  have hparse : sampleEngine.jsonParse twoDayPlanText = .ok twoDayPlan := by
    have hne : twoDayPlanText ≠ samplePlanText := by
      set_option maxRecDepth 20000 in decide
    simp [sampleEngine, hne]
  have hattempt : planAttempt sampleEngine (reviewWorld "gemini" "").modelProvider
      (.resolved (geminiResponse (.str twoDayPlanText))) = .ok twoDayPlan := by
    show planAttempt sampleEngine "gemini" _ = _
    rw [planAttempt_payload sampleEngine "gemini" (geminiResponse (.str twoDayPlanText)) _
      twoDayPlanText rfl rfl rfl (by decide), hparse]
  rw [generatePlan_stored sampleEngine _ _ twoDayPlan (by decide) hattempt]
  exact ⟨by decide, by decide, rfl, rfl, rfl⟩

/-- Claim C4, amended. The payload is not validated.  For every provider whose credential
check passes and every ok response whose payload is a non-empty string: if `JSON.parse`
accepts it, the parsed value is stored whole as `mealPlan`, whatever its fields and the
number of its days, and `step` becomes 3 with no alert; if `JSON.parse` rejects it, the
call is a failure that leaves `step` and `mealPlan` as they were and raises an alert. -/
theorem generatePlan_no_validation (E : Engine) (w : World) (r : Response) (body : JsVal)
    (text : String) (hcred : ¬ (w.modelProvider ≠ "gemini" ∧ w.apiKey = ""))
    (hok : r.ok = true) (hbody : r.json = .ok body)
    (htext : payloadValue E w.modelProvider body = .ok (.str text)) (hne : text ≠ "") :
    (∀ v, E.jsonParse text = .ok v →
      (generatePlan E (.resolved r) w).mealPlan = v ∧
      (generatePlan E (.resolved r) w).step = 3 ∧
      (generatePlan E (.resolved r) w).loadingPlan = false ∧
      (generatePlan E (.resolved r) w).alerts = w.alerts) ∧
    (∀ e, E.jsonParse text = .error e →
      (generatePlan E (.resolved r) w).mealPlan = w.mealPlan ∧
      (generatePlan E (.resolved r) w).step = w.step ∧
      (generatePlan E (.resolved r) w).loadingPlan = false ∧
      (generatePlan E (.resolved r) w).alerts
        = w.alerts ++ ["Generation Failed: " ++ e.message]) := by
  have hattempt := planAttempt_payload E w.modelProvider r body text hok hbody htext hne
  constructor
  · intro v hv
    rw [generatePlan_stored E w (.resolved r) v hcred (by rw [hattempt, hv])]
    exact ⟨rfl, rfl, rfl, rfl⟩
  · intro e he
    rw [generatePlan_thrown E w (.resolved r) e hcred (by rw [hattempt, he])]
    exact ⟨rfl, rfl, rfl, rfl⟩

/-- Witness for C4 amended: OpenAI answers with the empty object, which is stored. -/
theorem generatePlan_no_validation_witness :
    (generatePlan sampleEngine (.resolved (chatResponse (.str "\x7b\x7d")))
      (reviewWorld "openai" "sk-test")).mealPlan = .obj [] ∧
    (generatePlan sampleEngine (.resolved (chatResponse (.str "\x7b\x7d")))
      (reviewWorld "openai" "sk-test")).step = 3 :=
  have h := (generatePlan_no_validation sampleEngine (reviewWorld "openai" "sk-test")
    (chatResponse (.str "\x7b\x7d")) _ "\x7b\x7d" (by decide) rfl rfl rfl (by decide)).1
    (.obj []) rfl
  ⟨h.1, h.2.1⟩

/-! ## How the setters and events act on the fields of `App` -/

@[simp] theorem updateOcr_step (i : Nat) (f : OcrSection → OcrSection) (w : World) :
    (updateOcr i f w).step = w.step := by
  unfold updateOcr; split <;> [split; skip] <;> rfl

@[simp] theorem updateOcr_mealPlan (i : Nat) (f : OcrSection → OcrSection) (w : World) :
    (updateOcr i f w).mealPlan = w.mealPlan := by
  unfold updateOcr; split <;> [split; skip] <;> rfl

@[simp] theorem updateOcr_extractedText (i : Nat) (f : OcrSection → OcrSection) (w : World) :
    (updateOcr i f w).extractedText = w.extractedText := by
  unfold updateOcr; split <;> [split; skip] <;> rfl

@[simp] theorem updateOcr_loadingPlan (i : Nat) (f : OcrSection → OcrSection) (w : World) :
    (updateOcr i f w).loadingPlan = w.loadingPlan := by
  unfold updateOcr; split <;> [split; skip] <;> rfl

@[simp] theorem updateOcr_pendingPlans (i : Nat) (f : OcrSection → OcrSection) (w : World) :
    (updateOcr i f w).pendingPlans = w.pendingPlans := by
  unfold updateOcr; split <;> [split; skip] <;> rfl

@[simp] theorem updateOcr_alerts (i : Nat) (f : OcrSection → OcrSection) (w : World) :
    (updateOcr i f w).alerts = w.alerts := by
  unfold updateOcr; split <;> [split; skip] <;> rfl

@[simp] theorem setStep_step (n : Nat) (w : World) : (setStep n w).step = n := by
  unfold setStep mountOcr
  split
  · split <;> simp_all
  · rfl

@[simp] theorem setStep_mealPlan (n : Nat) (w : World) :
    (setStep n w).mealPlan = w.mealPlan := by
  unfold setStep mountOcr; split <;> [split; skip] <;> rfl

@[simp] theorem setStep_extractedText (n : Nat) (w : World) :
    (setStep n w).extractedText = w.extractedText := by
  unfold setStep mountOcr; split <;> [split; skip] <;> rfl

@[simp] theorem setStep_loadingPlan (n : Nat) (w : World) :
    (setStep n w).loadingPlan = w.loadingPlan := by
  unfold setStep mountOcr; split <;> [split; skip] <;> rfl

@[simp] theorem setStep_pendingPlans (n : Nat) (w : World) :
    (setStep n w).pendingPlans = w.pendingPlans := by
  unfold setStep mountOcr; split <;> [split; skip] <;> rfl

@[simp] theorem setStep_alerts (n : Nat) (w : World) : (setStep n w).alerts = w.alerts := by
  unfold setStep mountOcr; split <;> [split; skip] <;> rfl

@[simp] theorem setStep_fetchLog (n : Nat) (w : World) :
    (setStep n w).fetchLog = w.fetchLog := by
  unfold setStep mountOcr; split <;> [split; skip] <;> rfl

/-- An event changes `mealPlan` only by storing a plan. -/
theorem dispatch_mealPlan (E : Engine) (w : World) (ev : Event) :
    (dispatch E w ev).mealPlan = (storedBy E w ev).getLast?.getD w.mealPlan := by
  cases ev with
  | fetchSettled p o =>
      simp only [dispatch, storedBy]
      split
      · simp only [generatePlanResume]
        cases planAttempt E p o <;> simp
      · rfl
  | selectImage file =>
      simp only [dispatch, storedBy, handleImageUpload]
      repeat' split
      all_goals rfl
  | recognizeSettled inst o =>
      simp only [dispatch, storedBy, recognizeSettled, onTextExtracted]
      cases o <;> split <;> simp
  | recognizeProgress inst status percent =>
      simp only [dispatch, storedBy, recognizeLogger]
      repeat' split
      all_goals simp
  | scriptLoaded inst => simp only [dispatch, storedBy, scriptLoaded]; split <;> simp
  | scriptFailed inst => simp only [dispatch, storedBy, scriptFailed]; split <;> simp
  | clickGenerate =>
      simp only [dispatch, storedBy, generatePlanStart]
      repeat' split
      all_goals rfl
  | _ =>
      simp only [dispatch, storedBy]
      first
        | rfl
        | (split <;> simp)

/-- An event makes the step 3 only by storing a plan. -/
theorem dispatch_step_three (E : Engine) (w : World) (ev : Event)
    (h : (dispatch E w ev).step = 3) : w.step = 3 ∨ storedBy E w ev ≠ [] := by
  cases ev with
  | fetchSettled p o =>
      simp only [dispatch, storedBy] at h ⊢
      split
      · cases hp : planAttempt E p o with
        | ok plan => right; simp
        | error e =>
            left
            rename_i hmem
            simpa [hmem, generatePlanResume, hp] using h
      · rename_i hmem
        left; simpa [hmem] using h
  | selectImage file =>
      left
      simp only [dispatch, handleImageUpload] at h
      revert h
      repeat' split
      all_goals exact id
  | recognizeSettled inst o =>
      left
      simp only [dispatch, recognizeSettled, onTextExtracted] at h
      revert h
      cases o <;> split <;> simp
  | recognizeProgress inst status percent =>
      left
      simp only [dispatch, recognizeLogger] at h
      revert h
      repeat' split
      all_goals simp
  | scriptLoaded inst =>
      left; simp only [dispatch, scriptLoaded] at h; revert h; split <;> simp
  | scriptFailed inst =>
      left; simp only [dispatch, scriptFailed] at h; revert h; split <;> simp
  | clickGenerate =>
      left
      simp only [dispatch, generatePlanStart] at h
      revert h
      repeat' split
      all_goals exact id
  | backToScan => left; simp only [dispatch] at h; revert h; split <;> simp
  | newScan => left; simp only [dispatch] at h; revert h; split <;> simp
  | editText v => left; simp only [dispatch] at h; revert h; split <;> simp
  | openSettings => left; simpa [dispatch] using h
  | closeSettings => left; simp only [dispatch] at h; revert h; split <;> simp
  | changeApiKey v => left; simp only [dispatch] at h; revert h; split <;> simp
  | changeProvider v => left; simp only [dispatch] at h; revert h; split <;> simp

/-- Every event leaves the step where it is or sets it to 1, 2 or 3. -/
theorem dispatch_step (E : Engine) (w : World) (ev : Event) :
    (dispatch E w ev).step = w.step ∨ (dispatch E w ev).step = 1 ∨
      (dispatch E w ev).step = 2 ∨ (dispatch E w ev).step = 3 := by
  cases ev with
  | fetchSettled p o =>
      simp only [dispatch, generatePlanResume]
      split
      · cases planAttempt E p o <;> simp
      · simp
  | selectImage file =>
      left
      simp only [dispatch, handleImageUpload]
      repeat' split
      all_goals rfl
  | recognizeSettled inst o =>
      simp only [dispatch, recognizeSettled, onTextExtracted]
      cases o <;> split <;> simp
  | recognizeProgress inst status percent =>
      left
      simp only [dispatch, recognizeLogger]
      repeat' split
      all_goals simp
  | scriptLoaded inst => left; simp only [dispatch, scriptLoaded]; split <;> simp
  | scriptFailed inst => left; simp only [dispatch, scriptFailed]; split <;> simp
  | clickGenerate =>
      left
      simp only [dispatch, generatePlanStart]
      repeat' split
      all_goals rfl
  | backToScan => simp only [dispatch]; split <;> simp
  | newScan => simp only [dispatch]; split <;> simp
  | editText v => left; simp only [dispatch]; split <;> simp
  | openSettings => left; simp [dispatch]
  | closeSettings => left; simp only [dispatch]; split <;> simp
  | changeApiKey v => left; simp only [dispatch]; split <;> simp
  | changeProvider v => left; simp only [dispatch]; split <;> simp

theorem run_cons (E : Engine) (w : World) (ev : Event) (events : List Event) :
    run E w (ev :: events) = run E (dispatch E w ev) events := rfl

/-- After any events, `mealPlan` is the last plan stored, or what it was at the start. -/
theorem run_mealPlan (E : Engine) (events : List Event) :
    ∀ w, (run E w events).mealPlan = (plansStored E w events).getLast?.getD w.mealPlan := by
  induction events with
  | nil => intro w; rfl
  | cons ev rest ih =>
      intro w
      rw [run_cons, ih, dispatch_mealPlan, plansStored, List.getLast?_append]
      cases (plansStored E (dispatch E w ev) rest).getLast? <;> simp

/-- After any events, the step is 3 only if it was at the start or a plan was stored. -/
theorem run_step_three (E : Engine) (events : List Event) :
    ∀ w, (run E w events).step = 3 → w.step = 3 ∨ plansStored E w events ≠ [] := by
  induction events with
  | nil => intro w h; exact Or.inl h
  | cons ev rest ih =>
      intro w h
      rw [run_cons] at h
      rcases ih _ h with h3 | hne
      · rcases dispatch_step_three E w ev h3 with h0 | hs
        · exact Or.inl h0
        · right; simp [plansStored, hs]
      · right; simp [plansStored, hne]

/-- After any events from a state at step 1, 2 or 3, the step is 1, 2 or 3. -/
theorem run_step (E : Engine) (events : List Event) :
    ∀ w, (w.step = 1 ∨ w.step = 2 ∨ w.step = 3) →
      ((run E w events).step = 1 ∨ (run E w events).step = 2 ∨ (run E w events).step = 3) := by
  induction events with
  | nil => intro w h; exact h
  | cons ev rest ih =>
      intro w h
      rw [run_cons]
      apply ih
      rcases dispatch_step E w ev with h0 | h1
      · rw [h0]; exact h
      · exact h1

/-! ## C5: `mealPlan` and the Plan step -/

set_option maxRecDepth 20000 in
/-- Counterexample to C5, both directions.  After a scan, a successful generation and
New Scan, the state is reachable, its step is 1 (Upload) and its `mealPlan` is still the
plan, which is not null.  After a scan and a generation that Gemini answers with the
JSON text `null`, the state is reachable, its step is 3 (Plan) and its `mealPlan` is null. -/
theorem mealPlan_iff_plan_fails :
    (Reachable sampleEngine (run sampleEngine (initialWorld "" "")
        (scanAndGenerate "Milk\nEggs\nBread" (.str samplePlanText) ++ [.newScan])) ∧
      (run sampleEngine (initialWorld "" "")
        (scanAndGenerate "Milk\nEggs\nBread" (.str samplePlanText) ++ [.newScan])).step = 1 ∧
      (run sampleEngine (initialWorld "" "")
        (scanAndGenerate "Milk\nEggs\nBread" (.str samplePlanText) ++ [.newScan])).mealPlan
        = samplePlan ∧
      samplePlan ≠ .null) ∧
    (Reachable sampleEngine (run sampleEngine (initialWorld "" "")
        (scanAndGenerate "Milk\nEggs\nBread" (.str "null"))) ∧
      (run sampleEngine (initialWorld "" "")
        (scanAndGenerate "Milk\nEggs\nBread" (.str "null"))).step = 3 ∧
      (run sampleEngine (initialWorld "" "")
        (scanAndGenerate "Milk\nEggs\nBread" (.str "null"))).mealPlan = .null) :=
  ⟨⟨⟨"", "", _, rfl⟩, rfl, rfl, fun h => JsVal.noConfusion h⟩, ⟨"", "", _, rfl⟩, rfl, rfl⟩

/-- Claim C5, amended. In every state reached from the initial state by any events, the
step is 1, 2 or 3; `mealPlan` is the value parsed by the most recent successful
generation, and null if there has been none; and the step is 3 (Plan) only if a
generation has succeeded.  So before the first successful generation `mealPlan` is null
and the step is not Plan. -/
theorem mealPlan_is_last_stored (E : Engine) (storedKey storedProvider : String)
    (events : List Event) :
    ((run E (initialWorld storedKey storedProvider) events).step = 1 ∨
      (run E (initialWorld storedKey storedProvider) events).step = 2 ∨
      (run E (initialWorld storedKey storedProvider) events).step = 3) ∧
    (run E (initialWorld storedKey storedProvider) events).mealPlan
      = (plansStored E (initialWorld storedKey storedProvider) events).getLast?.getD .null ∧
    ((run E (initialWorld storedKey storedProvider) events).step = 3 →
      plansStored E (initialWorld storedKey storedProvider) events ≠ []) ∧
    (plansStored E (initialWorld storedKey storedProvider) events = [] →
      (run E (initialWorld storedKey storedProvider) events).mealPlan = .null ∧
      (run E (initialWorld storedKey storedProvider) events).step ≠ 3) := by
  have hm := run_mealPlan E events (initialWorld storedKey storedProvider)
  have h3 := run_step_three E events (initialWorld storedKey storedProvider)
  have h1 : (initialWorld storedKey storedProvider).step = 1 := rfl
  have hnull : (initialWorld storedKey storedProvider).mealPlan = .null := rfl
  rw [hnull] at hm
  refine ⟨run_step E events _ (Or.inl h1), hm, ?_, ?_⟩
  · intro h
    rcases h3 h with h0 | hs
    · rw [h1] at h0; exact absurd h0 (by decide)
    · exact hs
  · intro hs
    refine ⟨by rw [hm, hs]; rfl, fun h => ?_⟩
    rcases h3 h with h0 | hne
    · rw [h1] at h0; exact absurd h0 (by decide)
    · exact hne hs

set_option maxRecDepth 20000 in
/-- Witness for C5 amended: after a scan and a successful generation a plan has been
stored; before any generation succeeds none has. -/
theorem mealPlan_is_last_stored_witness :
    plansStored sampleEngine (initialWorld "" "")
      (scanAndGenerate "Milk\nEggs\nBread" (.str samplePlanText)) ≠ [] ∧
    ((run sampleEngine (initialWorld "" "")
        [.scriptLoaded 0, .selectImage (some "receipt.jpg")]).mealPlan = .null ∧
      (run sampleEngine (initialWorld "" "")
        [.scriptLoaded 0, .selectImage (some "receipt.jpg")]).step ≠ 3) :=
  ⟨(mealPlan_is_last_stored sampleEngine "" ""
      (scanAndGenerate "Milk\nEggs\nBread" (.str samplePlanText))).2.2.1 rfl,
   (mealPlan_is_last_stored sampleEngine "" ""
      [.scriptLoaded 0, .selectImage (some "receipt.jpg")]).2.2.2 rfl⟩

/-! ## C6: what `loadingPlan` guards -/

/-- Only a click on the generate button and the settling of a `fetch` touch
`loadingPlan` and the calls in flight. -/
theorem dispatch_pending_unchanged (E : Engine) (w : World) (ev : Event)
    (hgen : ev ≠ .clickGenerate) (hfetch : ∀ p o, ev ≠ .fetchSettled p o) :
    (dispatch E w ev).pendingPlans = w.pendingPlans ∧
    (dispatch E w ev).loadingPlan = w.loadingPlan := by
  cases ev with
  | fetchSettled p o => exact absurd rfl (hfetch p o)
  | clickGenerate => exact absurd rfl hgen
  | selectImage file =>
      simp only [dispatch, handleImageUpload]
      repeat' split
      all_goals exact ⟨rfl, rfl⟩
  | recognizeSettled inst o =>
      simp only [dispatch, recognizeSettled, onTextExtracted]
      cases o <;> split <;> simp
  | recognizeProgress inst status percent =>
      simp only [dispatch, recognizeLogger]
      repeat' split
      all_goals simp
  | scriptLoaded inst => simp only [dispatch, scriptLoaded]; split <;> simp
  | scriptFailed inst => simp only [dispatch, scriptFailed]; split <;> simp
  | backToScan => simp only [dispatch]; split <;> simp
  | newScan => simp only [dispatch]; split <;> simp
  | editText v => simp only [dispatch]; split <;> simp
  | openSettings => simp [dispatch]
  | closeSettings => simp only [dispatch]; split <;> simp
  | changeApiKey v => simp only [dispatch]; split <;> simp
  | changeProvider v => simp only [dispatch]; split <;> simp

/-- While exactly the calls counted by `loadingPlan` are in flight, every event keeps it so. -/
theorem dispatch_inflight (E : Engine) (w : World) (ev : Event)
    (h : w.pendingPlans.length = if w.loadingPlan then 1 else 0) :
    (dispatch E w ev).pendingPlans.length = if (dispatch E w ev).loadingPlan then 1 else 0 := by
  by_cases hgen : ev = .clickGenerate
  · subst hgen
    by_cases hg : w.step = 2 ∧ w.loadingPlan = false
    · by_cases hc : w.modelProvider ≠ "gemini" ∧ w.apiKey = ""
      · have hd : dispatch E w .clickGenerate = { w with showSettings := true } := by
          simp only [dispatch, if_pos hg, generatePlanStart, if_pos hc]
        rw [hd]; exact h
      · have hd : dispatch E w .clickGenerate = generatePlanStart w := by
          simp only [dispatch, if_pos hg]
        rw [hd]
        simp only [generatePlanStart, if_neg hc]
        rw [hg.2] at h
        simp at h
        simp [h]
    · have hd : dispatch E w .clickGenerate = w := by simp only [dispatch, if_neg hg]
      rw [hd]; exact h
  · by_cases hfetch : ∃ p o, ev = .fetchSettled p o
    · obtain ⟨p, o, rfl⟩ := hfetch
      by_cases hmem : p ∈ w.pendingPlans
      · have hpos : 0 < w.pendingPlans.length := List.length_pos_of_mem hmem
        have hone : w.pendingPlans.length = 1 := by
          by_cases hl : w.loadingPlan = true
          · rw [if_pos hl] at h; exact h
          · rw [if_neg hl] at h; omega
        obtain ⟨q, hq⟩ := List.length_eq_one.mp hone
        have hpq : p = q := by rw [hq] at hmem; simpa using hmem
        subst hpq
        simp only [dispatch, if_pos hmem, generatePlanResume]
        cases planAttempt E p o <;> simp [hq]
      · have hd : dispatch E w (.fetchSettled p o) = w := by simp only [dispatch, if_neg hmem]
        rw [hd]; exact h
    · have hu := dispatch_pending_unchanged E w ev hgen
        (fun p o he => hfetch ⟨p, o, he⟩)
      rw [hu.1, hu.2]; exact h

/-- After any events, exactly the calls counted by `loadingPlan` are in flight. -/
theorem run_inflight (E : Engine) (events : List Event) :
    ∀ w, (w.pendingPlans.length = if w.loadingPlan then 1 else 0) →
      (run E w events).pendingPlans.length = if (run E w events).loadingPlan then 1 else 0 := by
  induction events with
  | nil => intro w h; exact h
  | cons ev rest ih => intro w h; rw [run_cons]; exact ih _ (dispatch_inflight E w ev h)

/-- Counterexample to C6.  After a scan and a click on the generate button the state is
busy in Review.  In that state Back to Scan moves the step to 1 and an edit replaces the
text; and when the generation completes after Back to Scan, it moves the step from 1
to 3. -/
theorem busy_state_not_frozen :
    (run sampleEngine (initialWorld "" "")
      [.scriptLoaded 0, .selectImage (some "receipt.jpg"),
       .recognizeSettled 0 (.text "Milk"), .clickGenerate]).loadingPlan = true ∧
    (run sampleEngine (initialWorld "" "")
      [.scriptLoaded 0, .selectImage (some "receipt.jpg"),
       .recognizeSettled 0 (.text "Milk"), .clickGenerate]).step = 2 ∧
    (run sampleEngine (initialWorld "" "")
      [.scriptLoaded 0, .selectImage (some "receipt.jpg"),
       .recognizeSettled 0 (.text "Milk"), .clickGenerate, .backToScan]).step = 1 ∧
    (run sampleEngine (initialWorld "" "")
      [.scriptLoaded 0, .selectImage (some "receipt.jpg"),
       .recognizeSettled 0 (.text "Milk"), .clickGenerate,
       .editText "Tea"]).extractedText = "Tea" ∧
    (run sampleEngine (initialWorld "" "")
      [.scriptLoaded 0, .selectImage (some "receipt.jpg"),
       .recognizeSettled 0 (.text "Milk"), .clickGenerate, .backToScan,
       .fetchSettled "gemini" (.resolved (geminiResponse (.str "\x7b\x7d")))]).step = 3 :=
  ⟨rfl, rfl, rfl, rfl, rfl⟩

/-- Claim C6, amended. While `loadingPlan` is true the generate button is disabled: a
click on it leaves the whole state unchanged, so `step`, `extractedText` and `mealPlan`
are unchanged and no further request is issued.  Consequently, in every state reached
from the initial state, exactly one call of `generatePlan` is in flight when
`loadingPlan` is true and none when it is false. -/
theorem generate_disabled_while_busy (E : Engine) :
    (∀ w : World, w.loadingPlan = true → dispatch E w .clickGenerate = w) ∧
    (∀ storedKey storedProvider events,
      (run E (initialWorld storedKey storedProvider) events).pendingPlans.length
        = if (run E (initialWorld storedKey storedProvider) events).loadingPlan then 1 else 0) := by
  constructor
  · intro w h
    simp [dispatch, h]
  · intro storedKey storedProvider events
    exact run_inflight E events _ rfl

/-- Witness for C6 amended: in the busy state after a scan and a click on the generate
button, a second click issues no second request. -/
theorem generate_disabled_while_busy_witness :
    (run sampleEngine (initialWorld "" "")
      [.scriptLoaded 0, .selectImage (some "receipt.jpg"),
       .recognizeSettled 0 (.text "Milk"), .clickGenerate, .clickGenerate]).fetchLog.length
      = 1 :=
  have h := (generate_disabled_while_busy sampleEngine).1
    (run sampleEngine (initialWorld "" "")
      [.scriptLoaded 0, .selectImage (some "receipt.jpg"),
       .recognizeSettled 0 (.text "Milk"), .clickGenerate]) rfl
  (congrArg (fun w => w.fetchLog.length) h).trans rfl

/-! ## C7: restart -/

set_option maxRecDepth 20000 in
/-- Counterexample to C7.  After a scan and a generation that stores the three-day
sample plan, the state is in Plan and not busy; New Scan then yields step 1 but keeps
the receipt text, which is not empty, and the plan, which is not null.  In a state in
Review that is not busy, Back to Scan yields step 1 but keeps the receipt text. -/
theorem restart_keeps_text_and_plan :
    ((run sampleEngine (initialWorld "" "")
        (scanAndGenerate "Milk\nEggs\nBread" (.str samplePlanText))).step = 3 ∧
      (run sampleEngine (initialWorld "" "")
        (scanAndGenerate "Milk\nEggs\nBread" (.str samplePlanText))).loadingPlan = false ∧
      (run sampleEngine (initialWorld "" "")
        (scanAndGenerate "Milk\nEggs\nBread" (.str samplePlanText))).mealPlan = samplePlan ∧
      (dispatch sampleEngine (run sampleEngine (initialWorld "" "")
        (scanAndGenerate "Milk\nEggs\nBread" (.str samplePlanText))) .newScan).step = 1 ∧
      (dispatch sampleEngine (run sampleEngine (initialWorld "" "")
        (scanAndGenerate "Milk\nEggs\nBread" (.str samplePlanText))) .newScan).extractedText
        = "Milk\nEggs\nBread" ∧
      "Milk\nEggs\nBread" ≠ "" ∧
      (dispatch sampleEngine (run sampleEngine (initialWorld "" "")
        (scanAndGenerate "Milk\nEggs\nBread" (.str samplePlanText))) .newScan).mealPlan
        = samplePlan ∧
      samplePlan ≠ .null) ∧
    ((reviewWorld "gemini" "").loadingPlan = false ∧
      (dispatch sampleEngine (reviewWorld "gemini" "") .backToScan).step = 1 ∧
      (dispatch sampleEngine (reviewWorld "gemini" "") .backToScan).extractedText
        = "Milk\nEggs\nBread") :=
  ⟨⟨rfl, rfl, rfl, rfl, rfl, by decide, rfl, fun h => JsVal.noConfusion h⟩, rfl, rfl, rfl⟩

/-- Claim C7, amended. For every state in Review, Back to Scan, and for every state in
Plan, New Scan, yields a state with step 1 (Upload) in which `extractedText` and
`mealPlan` are what they were, busy or not; Upload itself renders no restart control. -/
theorem restart_sets_step_only (E : Engine) (w : World) :
    (w.step = 2 →
      (dispatch E w .backToScan).step = 1 ∧
      (dispatch E w .backToScan).extractedText = w.extractedText ∧
      (dispatch E w .backToScan).mealPlan = w.mealPlan ∧
      (dispatch E w .backToScan).loadingPlan = w.loadingPlan) ∧
    (w.step = 3 →
      (dispatch E w .newScan).step = 1 ∧
      (dispatch E w .newScan).extractedText = w.extractedText ∧
      (dispatch E w .newScan).mealPlan = w.mealPlan ∧
      (dispatch E w .newScan).loadingPlan = w.loadingPlan) ∧
    (w.step = 1 → dispatch E w .backToScan = w ∧ dispatch E w .newScan = w) := by
  refine ⟨fun h => ?_, fun h => ?_, fun h => ?_⟩
  · simp [dispatch, h]
  · simp [dispatch, h]
  · simp [dispatch, h]

set_option maxRecDepth 20000 in
/-- Witness for C7 amended: New Scan in the Plan state reached by a scan and a generation
that stores the three-day sample plan keeps the text and the plan; Back to Scan from the
sample Review state keeps the text. -/
theorem restart_sets_step_only_witness :
    ((dispatch sampleEngine (run sampleEngine (initialWorld "" "")
        (scanAndGenerate "Milk\nEggs\nBread" (.str samplePlanText))) .newScan).step = 1 ∧
      (dispatch sampleEngine (run sampleEngine (initialWorld "" "")
        (scanAndGenerate "Milk\nEggs\nBread" (.str samplePlanText))) .newScan).extractedText
        = "Milk\nEggs\nBread" ∧
      (dispatch sampleEngine (run sampleEngine (initialWorld "" "")
        (scanAndGenerate "Milk\nEggs\nBread" (.str samplePlanText))) .newScan).mealPlan
        = samplePlan) ∧
    ((dispatch sampleEngine (reviewWorld "gemini" "") .backToScan).step = 1 ∧
      (dispatch sampleEngine (reviewWorld "gemini" "") .backToScan).extractedText
        = "Milk\nEggs\nBread" ∧
      (dispatch sampleEngine (reviewWorld "gemini" "") .backToScan).mealPlan = .null) :=
  have hn := (restart_sets_step_only sampleEngine (run sampleEngine (initialWorld "" "")
    (scanAndGenerate "Milk\nEggs\nBread" (.str samplePlanText)))).2.1 rfl
  have hb := (restart_sets_step_only sampleEngine (reviewWorld "gemini" "")).1 rfl
  ⟨⟨hn.1, hn.2.1.trans rfl, hn.2.2.1.trans rfl⟩, hb.1, hb.2.1, hb.2.2.1⟩

/-! ## C8: the receipt text outside Upload -/

/-- Counterexample to C8.  When recognition resolves with the empty string, the state
reached is in Review with empty `extractedText`; and in Review an edit to the empty
string makes `extractedText` empty. -/
theorem empty_text_in_review :
    (Reachable sampleEngine (run sampleEngine (initialWorld "" "")
        [.scriptLoaded 0, .selectImage (some "receipt.jpg"),
         .recognizeSettled 0 (.text "")]) ∧
      (run sampleEngine (initialWorld "" "")
        [.scriptLoaded 0, .selectImage (some "receipt.jpg"),
         .recognizeSettled 0 (.text "")]).step = 2 ∧
      (run sampleEngine (initialWorld "" "")
        [.scriptLoaded 0, .selectImage (some "receipt.jpg"),
         .recognizeSettled 0 (.text "")]).extractedText = "") ∧
    ((run sampleEngine (initialWorld "" "")
        [.scriptLoaded 0, .selectImage (some "receipt.jpg"),
         .recognizeSettled 0 (.text "Milk"), .editText ""]).step = 2 ∧
      (run sampleEngine (initialWorld "" "")
        [.scriptLoaded 0, .selectImage (some "receipt.jpg"),
         .recognizeSettled 0 (.text "Milk"), .editText ""]).extractedText = "") :=
  ⟨⟨⟨"", "", _, rfl⟩, rfl, rfl⟩, rfl, rfl⟩

/-- Claim C8, amended. For every state in Upload whose `OcrSection` is loaded and idle,
every file and every outcome of the recognition, submitting the file and letting the
recognition settle either moves to Review with `extractedText` equal to the recognised
text, which may be empty, or stays in Upload with `extractedText` unchanged, the
processing flag cleared and an error alert.  In Review an edit replaces `extractedText`
by the new value, which may be empty, and keeps the step. -/
theorem submitImage_outcomes (E : Engine) (w : World) (sec : OcrSection) (file : String)
    (hstep : w.step = 1) (hocr : w.ocr = some sec) (hidle : sec.isProcessing = false)
    (hloaded : sec.isLoaded = true) :
    (∀ t, (run E w [.selectImage (some file), .recognizeSettled sec.inst (.text t)]).step = 2 ∧
      (run E w [.selectImage (some file),
        .recognizeSettled sec.inst (.text t)]).extractedText = t) ∧
    (∀ e, (run E w [.selectImage (some file), .recognizeSettled sec.inst (.failed e)]).step = 1 ∧
      (run E w [.selectImage (some file),
        .recognizeSettled sec.inst (.failed e)]).extractedText = w.extractedText ∧
      (run E w [.selectImage (some file), .recognizeSettled sec.inst (.failed e)]).ocr
        = some { sec with preview := some file, isProcessing := false, progress := 0 } ∧
      (run E w [.selectImage (some file), .recognizeSettled sec.inst (.failed e)]).alerts
        = w.alerts ++ ["Failed to read receipt. Please try a clearer image."]) ∧
    (∀ v (w2 : World), w2.step = 2 →
      (dispatch E w2 (.editText v)).extractedText = v ∧ (dispatch E w2 (.editText v)).step = 2) := by
  have h1 : dispatch E w (.selectImage (some file)) =
      { w with
        ocr := some { sec with preview := some file, isProcessing := true, progress := 0 }
        recognizeLog := w.recognizeLog ++ [file]
        pendingOcr := w.pendingOcr ++ [sec.inst] } := by
    simp [dispatch, handleImageUpload, hocr, hidle, hloaded]
  refine ⟨fun t => ?_, fun e => ?_, fun v w2 h2 => ?_⟩
  · simp only [run, List.foldl_cons, List.foldl_nil, h1]
    simp [dispatch, recognizeSettled, onTextExtracted]
  · simp only [run, List.foldl_cons, List.foldl_nil, h1]
    simp [dispatch, recognizeSettled, updateOcr, hstep]
  · simp [dispatch, h2]

/-- Witness for C8 amended: the first scan, once the script has loaded. -/
theorem submitImage_outcomes_witness :
    (run sampleEngine (dispatch sampleEngine (initialWorld "" "") (.scriptLoaded 0))
      [.selectImage (some "receipt.jpg"), .recognizeSettled 0 (.text "Milk")]).step = 2 ∧
    (run sampleEngine (dispatch sampleEngine (initialWorld "" "") (.scriptLoaded 0))
      [.selectImage (some "receipt.jpg"),
       .recognizeSettled 0 (.text "Milk")]).extractedText = "Milk" ∧
    (dispatch sampleEngine (reviewWorld "gemini" "") (.editText "")).extractedText = "" :=
  have h := submitImage_outcomes sampleEngine
    (dispatch sampleEngine (initialWorld "" "") (.scriptLoaded 0))
    { inst := 0, isProcessing := false, progress := 0, preview := none, isLoaded := true }
    "receipt.jpg" rfl rfl rfl rfl
  ⟨(h.1 "Milk").1, (h.1 "Milk").2, (h.2.2 "" (reviewWorld "gemini" "") rfl).1⟩

/-! ## C9: the message of a response that is not ok -/

/-- Counterexample to C9.  A Gemini response with status 400 `Bad Request` and a body
that is not JSON fails with the message `Gemini API Error: Bad Request`, and an OpenAI
response with status 401 `Unauthorized` and such a body with `API Error 401:
Unauthorized`; neither is the raw status text. -/
theorem notOk_message_has_prefix :
    planAttempt sampleEngine "gemini" (.resolved
      { status := 400, statusText := "Bad Request"
        json := .error { name := "SyntaxError", message := "Unexpected end of JSON input" } })
      = .error { name := "Error", message := "Gemini API Error: Bad Request" } ∧
    "Gemini API Error: Bad Request" ≠ "Bad Request" ∧
    planAttempt sampleEngine "openai" (.resolved
      { status := 401, statusText := "Unauthorized"
        json := .error { name := "SyntaxError", message := "Unexpected end of JSON input" } })
      = .error { name := "Error", message := "API Error 401: Unauthorized" } ∧
    "API Error 401: Unauthorized" ≠ "Unauthorized" :=
  ⟨rfl, by decide, rfl, by decide⟩

/-- The error of a response that is not ok, once the argument of `new Error` is known. -/
theorem planAttempt_notOk (E : Engine) (p : String) (r : Response) (e : JsError)
    (hok : r.ok = false) (h : responseError E r (fallbackMessage p r) = .ok e) :
    planAttempt E p (.resolved r) = .error e := by
  unfold planAttempt
  by_cases hp : p = "gemini"
  · simp only [fallbackMessage, hp, if_true] at h
    simp [hp, geminiPlan, hok, h, bind, Except.bind, throw, throwThe, MonadExceptOf.throw]
  · simp only [fallbackMessage, hp, if_false] at h
    simp [hp, chatPlan, hok, h, bind, Except.bind, throw, throwThe, MonadExceptOf.throw]

/-- The error of a response that is not ok, when evaluating the argument of `new Error`
throws. -/
theorem planAttempt_notOk_thrown (E : Engine) (p : String) (r : Response) (t : JsError)
    (hok : r.ok = false) (h : responseError E r (fallbackMessage p r) = .error t) :
    planAttempt E p (.resolved r) = .error t := by
  unfold planAttempt
  by_cases hp : p = "gemini"
  · simp only [fallbackMessage, hp, if_true] at h
    simp [hp, geminiPlan, hok, h, bind, Except.bind]
  · simp only [fallbackMessage, hp, if_false] at h
    simp [hp, chatPlan, hok, h, bind, Except.bind]

/-- Reading a property of a value that is neither `undefined` nor `null` does not throw. -/
theorem getField_defined (E : Engine) (v : JsVal) (k : String) (h : v.isNullish = false) :
    ∃ x, getField E v k = .ok x := by
  cases v <;> simp [getField, JsVal.isNullish] at h ⊢

/-- An optional read never throws. -/
theorem optField_defined (E : Engine) (v : JsVal) (k : String) :
    ∃ x, optField E v k = .ok x := by
  unfold optField
  by_cases h : v.isNullish = true
  · exact ⟨.undefined, by simp [h]⟩
  · obtain ⟨x, hx⟩ := getField_defined E v k (by simpa using h)
    exact ⟨x, by simp [h, hx]⟩

/-- The argument of `new Error` in terms of the value bound to `err`. -/
theorem responseError_eq (E : Engine) (r : Response) (fallback : String) :
    responseError E r fallback = (do
      let e ← getField E (errorBody r) "error"
      let m ← optField E e "message"
      let message ← toJsString E (if m.truthy then m else JsVal.str fallback)
      pure { name := "Error", message := message }) := rfl

/-- A response that is not ok and whose body is the JSON value `null`: the read
`err.error` throws, and the failure is the engine's `TypeError` (lines 239 and 271). -/
theorem planAttempt_notOk_null (E : Engine) (p : String) (r : Response)
    (hok : r.ok = false) (hnull : r.json = .ok .null) :
    planAttempt E p (.resolved r) = .error (E.nullishRead .null "error") := by
  apply planAttempt_notOk_thrown E p r _ hok
  simp [responseError, hnull, getField, bind, Except.bind]

/-- Claim C9, amended. For every provider and every response that is not ok whose body
does not parse or parses to a value other than null: the reads `err.error?.message`
do not throw; when the value read is truthy, `generatePlan` fails with an `Error` whose
message is that value converted to a string, so the body's `error.message` itself when
it is a non-empty string (if converting an array or object throws, the failure is the
error of the conversion); when the value read is absent or falsy, the empty string
included, and when the body does not parse, the message is a fixed prefix followed by
the raw status text: `Gemini API Error: ` for Gemini, `API Error <status>: `
otherwise. -/
theorem notOk_message (E : Engine) (p : String) (r : Response) (hok : r.ok = false) :
    ((errorBody r).isNullish = false →
      ∃ e m, getField E (errorBody r) "error" = .ok e ∧ optField E e "message" = .ok m) ∧
    (∀ e m, getField E (errorBody r) "error" = .ok e → optField E e "message" = .ok m →
      m.truthy = true →
      planAttempt E p (.resolved r)
        = (match toJsString E m with
           | .ok message => .error { name := "Error", message := message }
           | .error thrown => .error thrown)) ∧
    (∀ e s, getField E (errorBody r) "error" = .ok e →
      optField E e "message" = .ok (.str s) → s ≠ "" →
      planAttempt E p (.resolved r) = .error { name := "Error", message := s }) ∧
    (∀ e m, getField E (errorBody r) "error" = .ok e → optField E e "message" = .ok m →
      m.truthy = false →
      planAttempt E p (.resolved r)
        = .error { name := "Error", message := fallbackMessage p r }) ∧
    (∀ t, r.json = .error t →
      planAttempt E p (.resolved r)
        = .error { name := "Error", message := fallbackMessage p r }) ∧
    fallbackMessage "gemini" r = "Gemini API Error: " ++ r.statusText ∧
    (p ≠ "gemini" →
      fallbackMessage p r = "API Error " ++ toString r.status ++ ": " ++ r.statusText) := by
  refine ⟨fun hb => ?_, fun e m he hm ht => ?_, fun e s he hm hne => ?_,
    fun e m he hm hf => ?_, fun t hb => ?_, rfl, fun hp => ?_⟩
  · obtain ⟨e, he⟩ := getField_defined E (errorBody r) "error" hb
    obtain ⟨m, hm⟩ := optField_defined E e "message"
    exact ⟨e, m, he, hm⟩
  · cases hs : toJsString E m with
    | ok message =>
        apply planAttempt_notOk E p r _ hok
        simp [responseError_eq, he, hm, ht, hs, bind, Except.bind, pure, Except.pure]
    | error thrown =>
        apply planAttempt_notOk_thrown E p r _ hok
        simp [responseError_eq, he, hm, ht, hs, bind, Except.bind]
  · apply planAttempt_notOk E p r _ hok
    simp [responseError_eq, he, hm, bind, Except.bind, JsVal.truthy, hne, toJsString,
      pure, Except.pure]
  · apply planAttempt_notOk E p r _ hok
    simp [responseError_eq, he, hm, bind, Except.bind, hf, toJsString, pure, Except.pure]
  · apply planAttempt_notOk E p r _ hok
    simp [responseError, hb, getField, optField, JsVal.isNullish, bind, Except.bind,
      JsVal.truthy, toJsString, pure, Except.pure]
  · simp [fallbackMessage, hp]

/-- Witness for C9 amended: DeepSeek answers 401 with a body carrying an error message,
401 with a body whose error message is the number 42, 500 with an empty object, and 503
with a body that is not JSON. -/
theorem notOk_message_witness :
    planAttempt sampleEngine "deepseek" (.resolved
      { status := 401, statusText := "Unauthorized"
        json := .ok (.obj [("error", .obj [("message", .str "Invalid API key")])]) })
      = .error { name := "Error", message := "Invalid API key" } ∧
    planAttempt sampleEngine "deepseek" (.resolved
      { status := 401, statusText := "Unauthorized"
        json := .ok (.obj [("error", .obj [("message", .num "42")])]) })
      = .error { name := "Error", message := "42" } ∧
    planAttempt sampleEngine "deepseek" (.resolved
      { status := 500, statusText := "Internal Server Error", json := .ok (.obj []) })
      = .error { name := "Error", message := "API Error 500: Internal Server Error" } ∧
    planAttempt sampleEngine "deepseek" (.resolved
      { status := 503, statusText := "Service Unavailable"
        json := .error { name := "SyntaxError", message := "Unexpected end of JSON input" } })
      = .error { name := "Error", message := "API Error 503: Service Unavailable" } ∧
    (∃ e m, getField sampleEngine (.obj []) "error" = .ok e ∧
      optField sampleEngine e "message" = .ok m) :=
  ⟨(notOk_message sampleEngine "deepseek"
      { status := 401, statusText := "Unauthorized"
        json := .ok (.obj [("error", .obj [("message", .str "Invalid API key")])]) }
      rfl).2.2.1
      (.obj [("message", .str "Invalid API key")]) "Invalid API key" rfl rfl (by decide),
   (notOk_message sampleEngine "deepseek"
      { status := 401, statusText := "Unauthorized"
        json := .ok (.obj [("error", .obj [("message", .num "42")])]) }
      rfl).2.1
      (.obj [("message", .num "42")]) (.num "42") rfl rfl rfl,
   (notOk_message sampleEngine "deepseek"
      { status := 500, statusText := "Internal Server Error", json := .ok (.obj []) }
      rfl).2.2.2.1 .undefined .undefined rfl rfl rfl,
   (notOk_message sampleEngine "deepseek"
      { status := 503, statusText := "Service Unavailable"
        json := .error { name := "SyntaxError", message := "Unexpected end of JSON input" } }
      rfl).2.2.2.2.1 _ rfl,
   (notOk_message sampleEngine "deepseek"
      { status := 500, statusText := "Internal Server Error", json := .ok (.obj []) }
      rfl).1 rfl⟩

/-! ## C10: one instruction for all providers -/

/-- Claim C10. For every receipt text and key: the DeepSeek and OpenAI request bodies
consist of a model name, the same `messages` (the fixed `systemPrompt` as system message
and `Here is the receipt text: ` followed by the text as user message) and the same
response format, with the same method and headers, and differ in model and endpoint;
Gemini's body carries one text block, `systemPrompt`, a blank line and the same receipt
content.  The constant `systemPrompt` has neither the text nor the provider as argument. -/
theorem prompt_provider_independent (apiKey t : String) :
    (planRequest "deepseek" apiKey t).body
      = .obj [("model", .str "deepseek-chat"), ("messages", chatMessages t),
              ("response_format", .obj [("type", .str "json_object")])] ∧
    (planRequest "openai" apiKey t).body
      = .obj [("model", .str "gpt-4o-mini"), ("messages", chatMessages t),
              ("response_format", .obj [("type", .str "json_object")])] ∧
    requestField (planRequest "deepseek" apiKey t) "messages"
      = requestField (planRequest "openai" apiKey t) "messages" ∧
    (planRequest "deepseek" apiKey t).headers = (planRequest "openai" apiKey t).headers ∧
    (planRequest "deepseek" apiKey t).method = (planRequest "openai" apiKey t).method ∧
    (planRequest "deepseek" apiKey t).url = "https://api.deepseek.com/chat/completions" ∧
    (planRequest "openai" apiKey t).url = "https://api.openai.com/v1/chat/completions" ∧
    (planRequest "gemini" apiKey t).body
      = .obj [("contents", .arr [.obj [("parts", .arr [.obj [("text",
                .str (systemPrompt ++ "\n\n" ++ ("Here is the receipt text: \n\n" ++ t)))]])]]),
              ("generationConfig", .obj [("responseMimeType", .str "application/json")])] :=
  ⟨rfl, rfl, rfl, rfl, rfl, rfl, rfl, rfl⟩

/-! ## C11: the engine is not ready -/

/-- Claim C11. For every selected file, when the mounted `OcrSection` has
`tesseractLoaded` false, `handleImageUpload` only raises the "still loading" alert and
returns: `Tesseract.recognize` is not called, no recognition is left pending (so no
progress event of this instance can arrive and nothing is queued), and `preview`,
`isProcessing`, `progress`, `step` and `extractedText` are unchanged.  The file input is
disabled in that state, so the change event itself leaves the state as it is. -/
theorem handleImageUpload_not_loaded (E : Engine) (w : World) (sec : OcrSection)
    (file : String) (hocr : w.ocr = some sec) (hnot : sec.isLoaded = false) :
    handleImageUpload (some file) w
      = { w with alerts := w.alerts ++ ["OCR Engine is still loading. Please wait a moment."] } ∧
    (handleImageUpload (some file) w).recognizeLog = w.recognizeLog ∧
    (handleImageUpload (some file) w).pendingOcr = w.pendingOcr ∧
    (handleImageUpload (some file) w).ocr = some sec ∧
    (handleImageUpload (some file) w).step = w.step ∧
    (handleImageUpload (some file) w).extractedText = w.extractedText ∧
    (∀ status percent, sec.inst ∉ w.pendingOcr →
      dispatch E (handleImageUpload (some file) w) (.recognizeProgress sec.inst status percent)
        = handleImageUpload (some file) w) ∧
    dispatch E w (.selectImage (some file)) = w := by
  have h : handleImageUpload (some file) w
      = { w with alerts := w.alerts ++ ["OCR Engine is still loading. Please wait a moment."] } := by
    simp [handleImageUpload, hocr, hnot]
  refine ⟨h, ?_, ?_, ?_, ?_, ?_, ?_, ?_⟩
  · rw [h]
  · rw [h]
  · rw [h]; exact hocr
  · rw [h]
  · rw [h]
  · intro status percent hpending
    rw [h]
    simp [dispatch, hpending]
  · simp [dispatch, hocr, hnot]

/-- Witness for C11: a file is submitted in the initial state, before the script has
loaded. -/
theorem handleImageUpload_not_loaded_witness :
    (handleImageUpload (some "receipt.jpg") (initialWorld "" "")).recognizeLog = [] ∧
    (handleImageUpload (some "receipt.jpg") (initialWorld "" "")).pendingOcr = [] ∧
    (handleImageUpload (some "receipt.jpg") (initialWorld "" "")).ocr
      = some { inst := 0, isProcessing := false, progress := 0, preview := none,
               isLoaded := false } ∧
    (handleImageUpload (some "receipt.jpg") (initialWorld "" "")).step = 1 ∧
    (handleImageUpload (some "receipt.jpg") (initialWorld "" "")).extractedText = "" ∧
    (handleImageUpload (some "receipt.jpg") (initialWorld "" "")).alerts
      = ["OCR Engine is still loading. Please wait a moment."] :=
  have h := handleImageUpload_not_loaded sampleEngine (initialWorld "" "")
    { inst := 0, isProcessing := false, progress := 0, preview := none, isLoaded := false }
    "receipt.jpg" rfl rfl
  ⟨h.2.1, h.2.2.1, h.2.2.2.1, h.2.2.2.2.1, h.2.2.2.2.2.1, congrArg World.alerts h.1⟩

end RecipeApp
